import Mathlib

/-!
Shallow embedding of the turn-orchestration core of the
`ai-inbox-python-service` repository (`logic.py` and
`booking_providers/square.py`), together with proofs about it.

Modelling conventions:
* Python dicts become association lists (`List (String × _)`) or, for the
  process-wide `conversation_histories` map, a total function with the
  empty default (a Python dict entry is created with `[]` on first access,
  which is observationally the same as the default).
* The OpenAI client and the network-backed `booking_providers/setmore.py`
  functions are external collaborators performing I/O; they are modelled
  as parameters of an environment record (`Env`).  Every code path of the
  setmore module returns a JSON string and never raises, so it is modelled
  as a total `String`-valued function.
* A raised exception from an oracle call is the `OracleOutcome.failure`
  constructor; the whole `try` body of `get_chatbot_response` is embedded
  in `turnCore` with the `except` branch made explicit.
* Machine strings are Lean `String`s; Python `str.strip` is `pyStrip`
  and Python `str.title` is `strTitle` below (ASCII semantics).
-/

/-- Persisted conversation entry: `\x7b"role": "user" | "assistant", "content": ...\x7d`.
An assistant entry's content may be `None` (the code appends
`final_response` unconditionally on the tool path). -/
inductive PMsg where
  | user (content : String)
  | assistant (content : Option String)
  deriving DecidableEq, Repr

/-- One entry of `response_message.tool_calls`: id, function name and the
parsed JSON object `json.loads(tool_call.function.arguments)`, modelled as
key/value pairs. -/
structure ToolCall where
  id : String
  name : String
  arguments : List (String × String)
  deriving DecidableEq, Repr

/-- Transient message of the in-flight `messages` list (never persisted):
the system prompt, prior history, the new user message, the assistant
message carrying tool calls, and tool-result messages
`\x7b"tool_call_id": ..., "role": "tool", "name": ..., "content": ...\x7d`. -/
inductive TMsg where
  | system (content : String)
  | user (content : String)
  | assistant (content : Option String)
  | assistantToolCalls (content : Option String) (tool_calls : List ToolCall)
  | tool (tool_call_id : String) (name : String) (content : String)
  deriving DecidableEq, Repr

/-- Outcome of one `OPENAI_CLIENT.chat.completions.create` call:
either a message (its `content`, possibly `None`, and its `tool_calls`,
`None` modelled as `[]`), or a raised exception. -/
inductive OracleOutcome where
  | ok (content : Option String) (tool_calls : List ToolCall)
  | failure
  deriving Repr

/-- One service row: `\x7b"price": ..., "duration": ...\x7d`. -/
structure Service where
  price : String
  duration : String
  deriving DecidableEq, Repr

/-- The `business_data` argument: `\x7b"services": ..., "config": ...\x7d`. -/
structure BusinessData where
  services : List (String × Service)
  config : List (String × String)
  deriving DecidableEq, Repr

/-- The `booking_data` argument, a dict read with `.get`. -/
abbrev BookingData := List (String × String)

/-- External collaborators of one turn: the two oracle call outcomes
(first tool-enabled call, then the synthesis call) and the network-backed
setmore provider functions, which receive the keyword arguments and the
injected `client_api_key`. -/
structure Env where
  resp1 : OracleOutcome
  resp2 : OracleOutcome
  setmore_get_availability : List (String × String) → Option String → String
  setmore_create_appointment : List (String × String) → Option String → String

/-- Result of one `get_chatbot_response` body: the returned reply, the
final transient `messages` list, the new persisted history of this user
and how many oracle calls were made (attempted) this turn. -/
structure TurnResult where
  reply : String
  messages : List TMsg
  hist : List PMsg
  oracleCalls : Nat
  deriving Repr

/-- Python `d.get(key, default)` on a string-valued dict. -/
def configGet (c : List (String × String)) (key default : String) : String :=
  (c.lookup key).getD default

/-- Python `a or b` on two `.get` results (`None` and `""` are falsy). -/
def pyOrStr (a b : Option String) : Option String :=
  match a with
  | some s => if s = "" then b else some s
  | none => b

/-- Source line: `booking_data.get('provider') or booking_data.get('booking_provider')`. -/
def resolvedProvider (b : BookingData) : Option String :=
  pyOrStr (b.lookup "provider") (b.lookup "booking_provider")

/-- Source line: `booking_data.get('api_key') or booking_data.get('booking_api_key')`. -/
def resolvedApiKey (b : BookingData) : Option String :=
  pyOrStr (b.lookup "api_key") (b.lookup "booking_api_key")

namespace square

/-- Embeds `booking_providers/square.py`
`get_availability(service_name, date, client_api_key)` (simulated
provider: the body ignores its parameters and returns a fixed JSON
payload).  The signature has exactly these parameters and no `**kwargs`
catch-all; keyword binding against it is modelled at the call site. -/
def get_availability (service_name date client_api_key : String) : String :=
  "\x7b\"provider\": \"Square\", \"available_times\": [\"09:45:00\", \"13:15:00\", \"16:00:00\"]\x7d"

/-- Embeds `booking_providers/square.py`
`create_appointment(service_name, date, time, customer_name, client_api_key)`.
There is no `customer_email` parameter and no `**kwargs` catch-all. -/
def create_appointment (service_name date time customer_name client_api_key : String) : String :=
  "\x7b\"success\": true, \"provider\": \"Square\", \"confirmation_id\": \"SQ-BOOKING-ID-789\"\x7d"

end square

/-- The JSON string `json.dumps(\x7b"error": "This booking provider is not configured or supported."\x7d)`
returned by both router functions on an unknown provider. -/
def unsupportedProviderError : String :=
  "\x7b\"error\": \"This booking provider is not configured or supported.\"\x7d"

/-- The keyword names a provider implementation is called with: the names
of the parsed JSON arguments.  The orchestrator assigns
`args['provider']` and `args['client_api_key']` before the call; the
router's named `provider` parameter consumes the former, so the
implementation receives the remaining names with `client_api_key` always
present. -/
def kwargNames (kwargs : List (String × String)) : List String :=
  ((kwargs.map Prod.fst).filter (fun k => !(k == "provider"))) ++ ["client_api_key"]

/-- Python call binding `f(**kwargs)` against a signature whose
parameters are exactly `params` with no `**kwargs` catch-all: the call
raises `TypeError` unless the keyword names are exactly the parameter
names (an unexpected keyword and a missing required keyword both raise). -/
def bindsExactly (params ks : List String) : Bool :=
  params.all (fun p => ks.contains p) && ks.all (fun k => params.contains k)

/-- Python call binding `f(**kwargs)` against a signature with required
parameters `params` plus a `**kwargs` catch-all (the setmore functions):
only a missing required keyword raises `TypeError`. -/
def bindsAtLeast (params ks : List String) : Bool :=
  params.all (fun p => ks.contains p)

/-- Embeds `get_availability_from_provider(provider, **kwargs)`: string
dispatch on the provider id, defaulting to a structured JSON error.  The
`provider` value injected by the orchestrator may be `None`
(`Option.none`), which matches neither branch.  A call into a concrete
provider implementation performs Python keyword binding first; a binding
failure is the raised `TypeError`, modelled as `none`, which propagates
out of the router to the orchestrator's `except` branch.  The unknown
provider branch returns its error JSON without calling (and hence
without binding against) any implementation. -/
def get_availability_from_provider (env : Env) (provider : Option String)
    (kwargs : List (String × String)) (client_api_key : Option String) : Option String :=
  if provider = some "setmore" then
    if bindsAtLeast ["service_name", "date", "client_api_key"] (kwargNames kwargs) then
      some (env.setmore_get_availability kwargs client_api_key)
    else none
  else if provider = some "square" then
    if bindsExactly ["service_name", "date", "client_api_key"] (kwargNames kwargs) then
      some (square.get_availability ((kwargs.lookup "service_name").getD "")
        ((kwargs.lookup "date").getD "") (client_api_key.getD ""))
    else none
  else some unsupportedProviderError

/-- Embeds `create_appointment_with_provider(provider, **kwargs)`; same
binding discipline as `get_availability_from_provider`.  In particular a
schema-compliant call carrying `customer_email` routed to "square" fails
to bind (the square signature lacks that parameter) and raises. -/
def create_appointment_with_provider (env : Env) (provider : Option String)
    (kwargs : List (String × String)) (client_api_key : Option String) : Option String :=
  if provider = some "setmore" then
    if bindsAtLeast ["service_name", "date", "time", "customer_name", "client_api_key"]
        (kwargNames kwargs) then
      some (env.setmore_create_appointment kwargs client_api_key)
    else none
  else if provider = some "square" then
    if bindsExactly ["service_name", "date", "time", "customer_name", "client_api_key"]
        (kwargNames kwargs) then
      some (square.create_appointment ((kwargs.lookup "service_name").getD "")
        ((kwargs.lookup "date").getD "") ((kwargs.lookup "time").getD "")
        ((kwargs.lookup "customer_name").getD "") (client_api_key.getD ""))
    else none
  else some unsupportedProviderError

/-- Membership of the `available_functions` dict
`\x7b"check_availability": ..., "create_appointment": ...\x7d`. -/
def recognizedName (name : String) : Bool :=
  name = "check_availability" || name = "create_appointment"

/-- Outcome of one iteration of the tool-call loop: the request was
skipped (`if not function_to_call: continue`), the provider call raised
(`TypeError` propagating to the outer `except`), or it returned a result
string that becomes a tool message. -/
inductive ToolCallStep where
  | skipped
  | raised
  | result (content : String)
  deriving DecidableEq, Repr

/-- One iteration of the tool-call loop: look the function name up in
`available_functions`; on a hit, run the routed provider call with the
parsed arguments plus the injected `provider` and `client_api_key` (a
raised call gives `ToolCallStep.raised`); on a miss produce nothing. -/
def callTool (env : Env) (booking : BookingData) (tc : ToolCall) : ToolCallStep :=
  if tc.name = "check_availability" then
    match get_availability_from_provider env (resolvedProvider booking)
        tc.arguments (resolvedApiKey booking) with
    | some r => ToolCallStep.result r
    | none => ToolCallStep.raised
  else if tc.name = "create_appointment" then
    match create_appointment_with_provider env (resolvedProvider booking)
        tc.arguments (resolvedApiKey booking) with
    | some r => ToolCallStep.result r
    | none => ToolCallStep.raised
  else ToolCallStep.skipped

/-- The `for tool_call in tool_calls` loop: the tool-result messages
appended in request order, paired with a flag recording whether some
call raised — in which case the loop stops there (later requests are
never executed) and the exception propagates. -/
def execTools (env : Env) (booking : BookingData) : List ToolCall → List TMsg × Bool
  | [] => ([], false)
  | tc :: rest =>
    match callTool env booking tc with
    | ToolCallStep.skipped => execTools env booking rest
    | ToolCallStep.raised => ([], true)
    | ToolCallStep.result r =>
      (TMsg.tool tc.id tc.name r :: (execTools env booking rest).1,
        (execTools env booking rest).2)

/-- Models Python `str.title` for ASCII text: an alphabetic character is
uppercased when the previous character is not alphabetic and lowercased
otherwise. -/
def titleCaseAux : Bool → List Char → List Char
  | _, [] => []
  | prevAlpha, c :: cs =>
    (if c.isAlpha then (if prevAlpha then c.toLower else c.toUpper) else c)
      :: titleCaseAux c.isAlpha cs

/-- Python `str.title` (ASCII semantics). -/
def strTitle (s : String) : String :=
  String.mk (titleCaseAux false s.data)

/-- One rendered line of the services block:
`f"- \x7bname.title()\x7d: Price is \x7bdetails['price']\x7d, Duration is \x7bdetails['duration']\x7d"`. -/
def service_line (p : String × Service) : String :=
  "- " ++ strTitle p.1 ++ ": Price is " ++ p.2.price ++ ", Duration is " ++ p.2.duration

/-- Insertion step of the sort below. -/
def insertService (x : String × Service) : List (String × Service) → List (String × Service)
  | [] => [x]
  | y :: ys => if x.1 ≤ y.1 then x :: y :: ys else y :: insertService x ys

/-- Python `sorted(service_dict.items())`: the service rows sorted by
name (dict keys are unique, so tuple comparison only ever compares keys;
an insertion sort realizes the same by-key ordering). -/
def sortedServices : List (String × Service) → List (String × Service)
  | [] => []
  | x :: xs => insertService x (sortedServices xs)

/-- Embeds `format_services_for_prompt`. -/
def format_services_for_prompt (service_dict : List (String × Service)) : String :=
  if service_dict.isEmpty then "No specific service details are loaded."
  else String.intercalate "\n" ((sortedServices service_dict).map service_line)

/-- The fixed apology returned by the `except` branch. -/
def apologyReply : String := "Sorry, there was an error processing your request."

/-- The fixed neutral prompt returned when `final_response` is falsy. -/
def neutralReply : String := "How else can I help you today?"

/-- The default handoff phrase used when `config['handoff_code']` is missing. -/
def defaultHandoff : String :=
  "I\x27m not sure about that, but I can get a team member to help you."

/-- Embeds the `system_prompt` f-string of `get_chatbot_response`. -/
def system_prompt (business : BusinessData) (today : String) : String :=
  let config := business.config
  let service_info := format_services_for_prompt business.services
  let handoff_phrase := configGet config "handoff_code" defaultHandoff
  "You are an automated appointment booking assistant for a business named "
    ++ configGet config "business_name" "our shop" ++ ".\n"
    ++ "Today\x27s date is " ++ today ++ ".\n\n"
    ++ "--- PRIMARY GOAL & RULES ---\n"
    ++ "1. Your main purpose is to help users check for available appointment times and book appointments using the provided tools.\n"
    ++ "2. **CRITICAL RULE:** You MUST NOT answer questions about availability or attempt to book an appointment by making up text. You must use the `check_availability` tool to find open slots first, and then use the `create_appointment` tool to finalize a booking. If the user is vague, you must ask clarifying questions to get the parameters needed for the tools (like service name, date, time, and customer name).\n"
    ++ "3. **HANDOFF RULE:** If you absolutely cannot answer a question using the provided tools or business information, you MUST respond with ONLY the following phrase: \x27" ++ handoff_phrase ++ "\x27\n"
    ++ "4. **FALLBACK BEHAVIOR:** If the user asks a general question NOT related to booking (e.g., \x27What are your prices?\x27), then and only then should you answer using the \x27Business Information\x27 provided below.\n\n"
    ++ "--- MESSAGE STYLE ---\n"
    ++ "• Ensure all responses are well-structured, visually clear, and aesthetically pleasing.\n"
    ++ "• Use line breaks, bullet points, or emojis (if appropriate for the tone) to improve readability.\n"
    ++ "• Keep messages warm, helpful, and easy to follow without being cluttered or overly wordy.\n\n"
    ++ "--- Business Information for Fallback Questions ---\n" ++ service_info ++ "\n"

/-- Property entry of a tool's JSON-schema `parameters.properties`. -/
structure ToolProperty where
  name : String
  jsonType : String
  description : Option String
  deriving DecidableEq, Repr

/-- One entry of the `tools` list (`"type": "function"` wrapper elided). -/
structure FunctionSchema where
  name : String
  description : String
  properties : List ToolProperty
  required : List String
  deriving DecidableEq, Repr

/-- Embeds the fixed `tools` list passed to the oracle every turn. -/
def tools : List FunctionSchema :=
  [ { name := "check_availability"
    , description := "Checks for available appointment slots."
    , properties :=
        [ ⟨"service_name", "string", none⟩
        , ⟨"date", "string", some "YYYY-MM-DD"⟩ ]
    , required := ["service_name", "date"] }
  , { name := "create_appointment"
    , description := "Books a service appointment after availability has been confirmed."
    , properties :=
        [ ⟨"service_name", "string", none⟩
        , ⟨"date", "string", none⟩
        , ⟨"time", "string", none⟩
        , ⟨"customer_name", "string", none⟩
        , ⟨"customer_email", "string", some "The customer\x27s email address for confirmation."⟩ ]
    , required := ["service_name", "date", "time", "customer_name", "customer_email"] } ]

/-- Python truthiness of `final_response` (`None` and `""` are falsy). -/
def truthy : Option String → Bool
  | none => false
  | some s => !(s = "")

/-- Python `str.strip()`: remove leading and trailing whitespace. -/
def pyStrip (s : String) : String :=
  String.mk (((s.data.dropWhile Char.isWhitespace).reverse.dropWhile
    Char.isWhitespace).reverse)

/-- Source line: `return final_response.strip() if final_response else "How else can I help you today?"`. -/
def finalizeReply : Option String → String
  | none => neutralReply
  | some s => if s = "" then neutralReply else pyStrip s

/-- Source line: `conversation_histories[user_id] = conversation_histories[user_id][-10:]`. -/
def lastTen (l : List PMsg) : List PMsg :=
  l.drop (l.length - 10)

/-- Persisted history entries become plain user/assistant messages when
prepended to the transient list. -/
def pmsgToTMsg : PMsg → TMsg
  | .user c => .user c
  | .assistant c => .assistant c

/-- Embeds the body of `get_chatbot_response` for one user's history: the
transient message construction, the first (tool-enabled) oracle call, the
tool loop and synthesis call, the history appends and trim, and the
`except` branch returning the fixed apology with history untouched.  The
`except Exception` branch is reached both by a raising oracle call and by
a `TypeError` raised inside the tool loop (keyword-binding failure of a
provider call); in the latter case the synthesis call was never made, so
only one oracle call happened. -/
def turnCore (env : Env) (business : BusinessData) (booking : BookingData)
    (today : String) (hist : List PMsg) (user_prompt : String) : TurnResult :=
  let sys := system_prompt business today
  let messages := (TMsg.system sys :: hist.map pmsgToTMsg) ++ [TMsg.user user_prompt]
  match env.resp1 with
  | .failure => ⟨apologyReply, messages, hist, 1⟩
  | .ok content tool_calls =>
    if tool_calls.isEmpty then
      let final_response := content
      let hist' := hist ++ (PMsg.user user_prompt ::
        (if truthy final_response then [PMsg.assistant final_response] else []))
      ⟨finalizeReply final_response, messages, lastTen hist', 1⟩
    else
      let messages := messages ++ [TMsg.assistantToolCalls content tool_calls]
      let step := execTools env booking tool_calls
      let messages := messages ++ step.1
      if step.2 then ⟨apologyReply, messages, hist, 1⟩
      else
        match env.resp2 with
        | .failure => ⟨apologyReply, messages, hist, 2⟩
        | .ok final_response _ =>
          let hist' := hist ++ [PMsg.user user_prompt, PMsg.assistant final_response]
          ⟨finalizeReply final_response, messages, lastTen hist', 2⟩

/-- The process-wide `conversation_histories` dict, one bounded history
per user id (missing keys behave as the empty history the code creates
on first access). -/
abbrev Histories := String → List PMsg

/-- The dict at process start. -/
def emptyHistories : Histories := fun _ => []

/-- Dict update `conversation_histories[user_id] = v`. -/
def updateHist (h : Histories) (u : String) (v : List PMsg) : Histories :=
  fun w => if w = u then v else h w

/-- Embeds `get_chatbot_response(user_id, user_prompt, business_data, booking_data)`
as a state transformer on the histories map. -/
def get_chatbot_response (env : Env) (user_id user_prompt : String)
    (business_data : BusinessData) (booking_data : BookingData) (today : String)
    (hists : Histories) : TurnResult × Histories :=
  let r := turnCore env business_data booking_data today (hists user_id) user_prompt
  (r, updateHist hists user_id r.hist)

/-- Inputs of one inbound turn (per-turn business snapshot, booking data,
date and external-collaborator behaviour). -/
structure TurnInput where
  user_id : String
  user_prompt : String
  business : BusinessData
  booking : BookingData
  today : String
  env : Env

/-- Runs a sequence of turns against the histories map. -/
def runScript : List TurnInput → Histories → Histories
  | [], h => h
  | t :: ts, h =>
    runScript ts (get_chatbot_response t.env t.user_id t.user_prompt
      t.business t.booking t.today h).2

/-- The entries a completed turn appends to the persisted history before
the trim; the failing paths (oracle failure, a raising tool call, or a
failing synthesis call) append nothing. -/
def appendedEntries (env : Env) (booking : BookingData) (user_prompt : String) : List PMsg :=
  match env.resp1 with
  | .failure => []
  | .ok content tool_calls =>
    if tool_calls.isEmpty then
      PMsg.user user_prompt ::
        (if truthy content then [PMsg.assistant content] else [])
    else if (execTools env booking tool_calls).2 then []
    else
      match env.resp2 with
      | .failure => []
      | .ok final_response _ => [PMsg.user user_prompt, PMsg.assistant final_response]

/-! ### Helper lemmas -/

theorem lastTen_length_le (l : List PMsg) : (lastTen l).length ≤ 10 := by
  simp only [lastTen, List.length_drop]
  omega

theorem lastTen_suffix (l : List PMsg) : List.IsSuffix (lastTen l) l :=
  List.drop_suffix _ _

theorem turnCore_hist_cases (env : Env) (business : BusinessData)
    (booking : BookingData) (today : String) (hist : List PMsg) (p : String) :
    (turnCore env business booking today hist p).hist = hist
    ∨ (turnCore env business booking today hist p).hist.length ≤ 10 := by
  rcases env with ⟨r1, r2, sga, sca⟩
  cases r1 with
  | failure => exact Or.inl rfl
  | ok c calls =>
    cases calls with
    | nil => exact Or.inr (lastTen_length_le _)
    | cons tc rest =>
      by_cases hb : (execTools ⟨.ok c (tc :: rest), r2, sga, sca⟩ booking (tc :: rest)).2 = true
      · left
        simp [turnCore, hb]
      · rw [Bool.not_eq_true] at hb
        cases r2 with
        | failure => left; simp [turnCore, hb]
        | ok t tcs => right; simpa [turnCore, hb] using lastTen_length_le _

theorem turnCore_hist_suffix (env : Env) (business : BusinessData)
    (booking : BookingData) (today : String) (hist : List PMsg) (p : String) :
    List.IsSuffix (turnCore env business booking today hist p).hist
      (hist ++ appendedEntries env booking p) := by
  rcases env with ⟨r1, r2, sga, sca⟩
  cases r1 with
  | failure =>
    simpa [turnCore, appendedEntries] using List.suffix_refl hist
  | ok c calls =>
    cases calls with
    | nil =>
      simpa [turnCore, appendedEntries] using
        lastTen_suffix (hist ++ (PMsg.user p ::
          (if truthy c then [PMsg.assistant c] else [])))
    | cons tc rest =>
      by_cases hb : (execTools ⟨.ok c (tc :: rest), r2, sga, sca⟩ booking (tc :: rest)).2 = true
      · simpa [turnCore, appendedEntries, hb] using List.suffix_refl hist
      · rw [Bool.not_eq_true] at hb
        cases r2 with
        | failure => simpa [turnCore, appendedEntries, hb] using List.suffix_refl hist
        | ok t tcs =>
          simpa [turnCore, appendedEntries, hb] using
            lastTen_suffix (hist ++ [PMsg.user p, PMsg.assistant t])

theorem histories_bounded (script : List TurnInput) (h : Histories)
    (hh : ∀ u, (h u).length ≤ 10) (u : String) :
    (runScript script h u).length ≤ 10 := by
  induction script generalizing h with
  | nil => exact hh u
  | cons t ts ih =>
    rw [runScript]
    refine ih _ (fun v => ?_)
    show ((updateHist h t.user_id
      (turnCore t.env t.business t.booking t.today (h t.user_id) t.user_prompt).hist) v).length ≤ 10
    unfold updateHist
    split
    · rcases turnCore_hist_cases t.env t.business t.booking t.today (h t.user_id)
        t.user_prompt with hc | hc
      · rw [hc]; exact hh _
      · exact hc
    · exact hh v

/-- Extracts the tool-result messages of a transient list, in order. -/
def toolResults : List TMsg → List TMsg
  | [] => []
  | TMsg.tool i n c :: ms => TMsg.tool i n c :: toolResults ms
  | _ :: ms => toolResults ms

theorem toolResults_append (a b : List TMsg) :
    toolResults (a ++ b) = toolResults a ++ toolResults b := by
  induction a with
  | nil => rfl
  | cons m ms ih => cases m <;> simp [toolResults, ih]

theorem toolResults_map_pmsg (l : List PMsg) :
    toolResults (l.map pmsgToTMsg) = [] := by
  induction l with
  | nil => rfl
  | cons m ms ih => cases m <;> simp [pmsgToTMsg, toolResults, ih]

/-- The tool-result message the loop appends for a request whose routed
call returns a result. -/
def toolMsg (env : Env) (booking : BookingData) (tc : ToolCall) : TMsg :=
  TMsg.tool tc.id tc.name
    (match callTool env booking tc with
     | ToolCallStep.result r => r
     | _ => "")

theorem toolResults_map_toolMsg (env : Env) (booking : BookingData)
    (l : List ToolCall) :
    toolResults (l.map (toolMsg env booking)) = l.map (toolMsg env booking) := by
  induction l with
  | nil => rfl
  | cons tc rest ih => simp [toolMsg, toolResults, ih]

theorem callTool_skipped_iff (env : Env) (booking : BookingData) (tc : ToolCall) :
    callTool env booking tc = ToolCallStep.skipped ↔ recognizedName tc.name = false := by
  unfold callTool recognizedName
  by_cases h1 : tc.name = "check_availability"
  · simp only [h1, if_true]
    cases get_availability_from_provider env (resolvedProvider booking) tc.arguments
        (resolvedApiKey booking) <;> simp
  · by_cases h2 : tc.name = "create_appointment"
    · simp only [h1, h2, if_false, if_true]
      cases create_appointment_with_provider env (resolvedProvider booking) tc.arguments
          (resolvedApiKey booking) <;> simp [h2]
    · simp [h1, h2]

theorem execTools_not_raised (env : Env) (booking : BookingData)
    (calls : List ToolCall)
    (h : ∀ tc ∈ calls, callTool env booking tc ≠ ToolCallStep.raised) :
    execTools env booking calls
      = ((calls.filter (fun tc => recognizedName tc.name)).map (toolMsg env booking),
          false) := by
  induction calls with
  | nil => rfl
  | cons tc rest ih =>
    have htc := h tc (List.mem_cons_self tc rest)
    have hrest : ∀ x ∈ rest, callTool env booking x ≠ ToolCallStep.raised :=
      fun x hx => h x (List.mem_cons_of_mem tc hx)
    rw [execTools]
    cases hc : callTool env booking tc with
    | skipped =>
      have hn : recognizedName tc.name = false :=
        (callTool_skipped_iff env booking tc).mp hc
      rw [ih hrest]
      simp [List.filter_cons, hn]
    | raised => exact absurd hc htc
    | result r =>
      have hrec : recognizedName tc.name = true := by
        by_contra hn
        rw [Bool.not_eq_true] at hn
        have := (callTool_skipped_iff env booking tc).mpr hn
        rw [this] at hc
        exact ToolCallStep.noConfusion hc
      rw [ih hrest]
      simp [List.filter_cons, hrec, toolMsg, hc]

/-! ### Claim theorems -/

/-- Claim C1 (amended): when the first (tool-enabled) oracle call raises,
`get_chatbot_response` returns the fixed apology text, and the persisted
histories map is pointwise unchanged — in particular the user's message is
NOT appended to the user's persisted conversation history. -/
theorem oracle_failure_apology_history_unchanged
    (r2 : OracleOutcome)
    (sga sca : List (String × String) → Option String → String)
    (uid p today : String) (bd : BusinessData) (bk : BookingData)
    (hists : Histories) :
    (get_chatbot_response ⟨.failure, r2, sga, sca⟩ uid p bd bk today hists).1.reply
        = apologyReply
    ∧ ∀ v, (get_chatbot_response ⟨.failure, r2, sga, sca⟩ uid p bd bk today hists).2 v
        = hists v := by
  refine ⟨rfl, fun v => ?_⟩
  show updateHist hists uid
    (turnCore ⟨.failure, r2, sga, sca⟩ bd bk today (hists uid) p).hist v = hists v
  have he : (turnCore ⟨.failure, r2, sga, sca⟩ bd bk today (hists uid) p).hist
      = hists uid := rfl
  rw [he]
  unfold updateHist
  split
  · next hv => rw [hv]
  · rfl

/-- Claim C1 counterexample: concrete turn (user "u1", message "hi", empty
store) whose first oracle call fails: the reply is the fixed apology, yet
the persisted history for "u1" stays empty — the user's message is not
appended, refuting the claim as stated. -/
theorem oracle_failure_user_turn_not_persisted :
    (get_chatbot_response ⟨.failure, .failure, fun _ _ => "", fun _ _ => ""⟩
        "u1" "hi" ⟨[], []⟩ [] "2024-05-01" emptyHistories).1.reply = apologyReply
    ∧ (get_chatbot_response ⟨.failure, .failure, fun _ _ => "", fun _ _ => ""⟩
        "u1" "hi" ⟨[], []⟩ [] "2024-05-01" emptyHistories).2 "u1" = []
    ∧ PMsg.user "hi" ∉
        (get_chatbot_response ⟨.failure, .failure, fun _ _ => "", fun _ _ => ""⟩
          "u1" "hi" ⟨[], []⟩ [] "2024-05-01" emptyHistories).2 "u1" := by
  refine ⟨rfl, rfl, ?_⟩
  rw [show (get_chatbot_response ⟨.failure, .failure, fun _ _ => "", fun _ _ => ""⟩
      "u1" "hi" ⟨[], []⟩ [] "2024-05-01" emptyHistories).2 "u1" = [] from rfl]
  exact List.not_mem_nil _

/-- Claim C2: starting from the empty store, after any sequence of turns
every user's persisted history has length at most 10; moreover each turn's
new history is a suffix of the old history extended by the entries the
turn appends, i.e. when the bound is exceeded the oldest entries are the
ones dropped (FIFO). -/
theorem history_bounded_and_fifo :
    (∀ (script : List TurnInput) (u : String),
        (runScript script emptyHistories u).length ≤ 10)
    ∧ (∀ (env : Env) (business : BusinessData) (booking : BookingData)
        (today : String) (hist : List PMsg) (p : String),
        List.IsSuffix (turnCore env business booking today hist p).hist
          (hist ++ appendedEntries env booking p)) :=
  ⟨fun script u =>
    histories_bounded script emptyHistories (fun _ => Nat.le_of_lt (by simp [emptyHistories])) u,
   turnCore_hist_suffix⟩

/-- Helper: on the tool path the final transient list is always
instructions, history, user message, the assistant tool-call message and
then whatever tool results the loop appended before finishing or raising. -/
theorem turnCore_messages_toolpath
    (c : Option String) (tc0 : ToolCall) (rest : List ToolCall)
    (r2 : OracleOutcome)
    (sga sca : List (String × String) → Option String → String)
    (bd : BusinessData) (bk : BookingData) (today : String)
    (hist : List PMsg) (p : String) :
    (turnCore ⟨.ok c (tc0 :: rest), r2, sga, sca⟩ bd bk today hist p).messages
      = (((TMsg.system (system_prompt bd today) :: hist.map pmsgToTMsg)
            ++ [TMsg.user p])
          ++ [TMsg.assistantToolCalls c (tc0 :: rest)])
        ++ (execTools ⟨.ok c (tc0 :: rest), r2, sga, sca⟩ bk (tc0 :: rest)).1 := by
  by_cases hb : (execTools ⟨.ok c (tc0 :: rest), r2, sga, sca⟩ bk (tc0 :: rest)).2 = true
  · simp [turnCore, hb]
  · rw [Bool.not_eq_true] at hb
    cases r2 <;> simp [turnCore, hb]

/-- Claim C3 (amended): in a tool-using turn in which no executed call
raises at keyword binding, the tool-result messages of the final transient
list are exactly one result per request whose function name is recognized
(`check_availability` / `create_appointment`), carrying that request's id
and appended in the order the requests were received; requests with an
unrecognized function name are skipped and receive no result.  When an
executed call does raise (such as a schema-compliant `create_appointment`
routed to "square"), the loop aborts there, later requests receive no
result and no synthesis occurs. -/
theorem tool_results_one_per_recognized_request
    (c : Option String) (tc0 : ToolCall) (rest : List ToolCall)
    (r2 : OracleOutcome)
    (sga sca : List (String × String) → Option String → String)
    (bd : BusinessData) (bk : BookingData) (today : String)
    (hist : List PMsg) (p : String)
    (hnr : ∀ tc ∈ tc0 :: rest,
        callTool ⟨.ok c (tc0 :: rest), r2, sga, sca⟩ bk tc ≠ ToolCallStep.raised) :
    toolResults (turnCore ⟨.ok c (tc0 :: rest), r2, sga, sca⟩ bd bk today hist p).messages
      = ((tc0 :: rest).filter (fun tc => recognizedName tc.name)).map
          (toolMsg ⟨.ok c (tc0 :: rest), r2, sga, sca⟩ bk) := by
  have hex := execTools_not_raised ⟨.ok c (tc0 :: rest), r2, sga, sca⟩ bk (tc0 :: rest) hnr
  rw [turnCore_messages_toolpath, hex, toolResults_append, toolResults_append,
    toolResults_append, toolResults_map_toolMsg]
  simp only [toolResults, toolResults_map_pmsg, List.nil_append, List.append_nil]

/-- Claim C3 witness: a concrete two-request turn — one recognized request
aimed at the unknown provider "wix", one request with the unrecognized
name "foo" — yields exactly the single tool result for the recognized
request, carrying its id and the structured router error. -/
theorem tool_results_one_per_recognized_request_witness :
    toolResults (turnCore ⟨.ok none
          [⟨"id1", "check_availability", [("service_name", "haircut"), ("date", "2024-05-02")]⟩,
           ⟨"id2", "foo", []⟩],
          .ok (some "done") [], fun _ _ => "", fun _ _ => ""⟩
        ⟨[], []⟩ [("provider", "wix")] "2024-05-01" [] "hi").messages
      = [TMsg.tool "id1" "check_availability" unsupportedProviderError] := by
  have h := tool_results_one_per_recognized_request none
    ⟨"id1", "check_availability", [("service_name", "haircut"), ("date", "2024-05-02")]⟩
    [⟨"id2", "foo", []⟩] (.ok (some "done") []) (fun _ _ => "") (fun _ _ => "")
    ⟨[], []⟩ [("provider", "wix")] "2024-05-01" [] "hi" (by decide)
  exact h.trans rfl

/-- Claim C3 counterexample: a concrete turn whose single tool request has
the unrecognized function name "foo" and id "id1" yields zero tool-result
messages carrying id "id1" (the claim requires exactly one). -/
theorem unrecognized_request_gets_no_result :
    ((turnCore ⟨.ok none [⟨"id1", "foo", []⟩], .ok (some "done") [],
          fun _ _ => "", fun _ _ => ""⟩ ⟨[], []⟩ [] "2024-05-01" [] "hi").messages.countP
        (fun m => match m with | TMsg.tool i _ _ => i = "id1" | _ => false)) = 0 := by
  rfl

/-- Claim C4 counterexample: on a first response with zero tool requests
and no text, the reply is the code's "How else can I help you today?",
which differs from the prompt "How else can I help?" stated by the claim. -/
theorem neutral_prompt_text_differs :
    (turnCore ⟨.ok none [], .failure, fun _ _ => "", fun _ _ => ""⟩
        ⟨[], []⟩ [] "2024-05-01" [] "hi").reply = "How else can I help you today?"
    ∧ (turnCore ⟨.ok none [], .failure, fun _ _ => "", fun _ _ => ""⟩
        ⟨[], []⟩ [] "2024-05-01" [] "hi").reply ≠ "How else can I help?" := by
  exact ⟨rfl, by decide⟩

/-- Claim C4 (amended): a first oracle response with zero tool requests
and no text is treated as final text with the fixed neutral prompt
"How else can I help you today?": that exact prompt is returned as the
reply, with exactly one oracle call and only the user entry persisted. -/
theorem empty_response_neutral_prompt
    (r2 : OracleOutcome)
    (sga sca : List (String × String) → Option String → String)
    (bd : BusinessData) (bk : BookingData) (today : String)
    (hist : List PMsg) (p : String) :
    (turnCore ⟨.ok none [], r2, sga, sca⟩ bd bk today hist p).reply = neutralReply
    ∧ (turnCore ⟨.ok none [], r2, sga, sca⟩ bd bk today hist p).oracleCalls = 1
    ∧ (turnCore ⟨.ok none [], r2, sga, sca⟩ bd bk today hist p).hist
        = lastTen (hist ++ [PMsg.user p]) := by
  exact ⟨rfl, rfl, rfl⟩

/-- Claim C5 (amended): a turn whose first oracle response is final text
(no tool calls) makes exactly one oracle call; a turn whose first response
contains tool requests makes exactly two oracle calls provided no executed
tool call raises at keyword binding; when a tool call does raise (such as
a schema-compliant `create_appointment` routed to "square"), the synthesis
call is never made — exactly one oracle call — and the apology is
returned. -/
theorem oracle_call_count
    (c : Option String) (tc0 : ToolCall) (rest : List ToolCall)
    (r2 : OracleOutcome)
    (sga sca : List (String × String) → Option String → String)
    (bd : BusinessData) (bk : BookingData) (today : String)
    (hist : List PMsg) (p : String) :
    (turnCore ⟨.ok c [], r2, sga, sca⟩ bd bk today hist p).oracleCalls = 1
    ∧ ((∀ tc ∈ tc0 :: rest,
          callTool ⟨.ok c (tc0 :: rest), r2, sga, sca⟩ bk tc ≠ ToolCallStep.raised) →
        (turnCore ⟨.ok c (tc0 :: rest), r2, sga, sca⟩ bd bk today hist p).oracleCalls = 2)
    ∧ ((execTools ⟨.ok c (tc0 :: rest), r2, sga, sca⟩ bk (tc0 :: rest)).2 = true →
        (turnCore ⟨.ok c (tc0 :: rest), r2, sga, sca⟩ bd bk today hist p).oracleCalls = 1
        ∧ (turnCore ⟨.ok c (tc0 :: rest), r2, sga, sca⟩ bd bk today hist p).reply
            = apologyReply) := by
  refine ⟨rfl, fun hnr => ?_, fun hr => ?_⟩
  · cases r2 with
    | failure =>
      have hex := execTools_not_raised ⟨.ok c (tc0 :: rest), .failure, sga, sca⟩
        bk (tc0 :: rest) hnr
      simp [turnCore, hex]
    | ok t tcs =>
      have hex := execTools_not_raised ⟨.ok c (tc0 :: rest), .ok t tcs, sga, sca⟩
        bk (tc0 :: rest) hnr
      simp [turnCore, hex]
  · exact ⟨by simp [turnCore, hr], by simp [turnCore, hr]⟩

/-- Claim C5 counterexample: a schema-compliant `create_appointment`
request (its arguments include the schema-required `customer_email`)
routed to provider "square" raises TypeError at keyword binding — the
Python signature has neither `customer_email` nor `**kwargs` — so the
synthesis call is never made: exactly one oracle call and the apology,
refuting "exactly two oracle calls" for tool-request turns. -/
theorem tool_turn_typeerror_single_call :
    (turnCore ⟨.ok none [⟨"id1", "create_appointment",
          [("service_name", "haircut"), ("date", "2024-05-02"), ("time", "10:00 AM"),
           ("customer_name", "Alex"), ("customer_email", "alex@example.com")]⟩],
        .ok (some "done") [], fun _ _ => "", fun _ _ => ""⟩
      ⟨[], []⟩ [("provider", "square"), ("api_key", "k")] "2024-05-01" [] "book").oracleCalls = 1
    ∧ (turnCore ⟨.ok none [⟨"id1", "create_appointment",
          [("service_name", "haircut"), ("date", "2024-05-02"), ("time", "10:00 AM"),
           ("customer_name", "Alex"), ("customer_email", "alex@example.com")]⟩],
        .ok (some "done") [], fun _ _ => "", fun _ _ => ""⟩
      ⟨[], []⟩ [("provider", "square"), ("api_key", "k")] "2024-05-01" [] "book").reply
        = apologyReply := by
  exact ⟨rfl, rfl⟩

/-- Claim C5 witness: the final-text path makes one call; a recognized
request to the unknown provider "wix" (never raises) makes two calls; the
square TypeError turn makes one call. -/
theorem oracle_call_count_witness :
    (turnCore ⟨.ok (some "hello") [], .failure, fun _ _ => "", fun _ _ => ""⟩
        ⟨[], []⟩ [] "2024-05-01" [] "hi").oracleCalls = 1
    ∧ (turnCore ⟨.ok none [⟨"id1", "check_availability", []⟩], .ok (some "done") [],
          fun _ _ => "", fun _ _ => ""⟩
        ⟨[], []⟩ [("provider", "wix")] "2024-05-01" [] "hi").oracleCalls = 2
    ∧ (turnCore ⟨.ok none [⟨"id2", "create_appointment",
          [("service_name", "haircut"), ("date", "2024-05-02"), ("time", "10:00 AM"),
           ("customer_name", "Alex"), ("customer_email", "alex@example.com")]⟩],
          .ok (some "done") [], fun _ _ => "", fun _ _ => ""⟩
        ⟨[], []⟩ [("provider", "square"), ("api_key", "k")] "2024-05-01" [] "hi").oracleCalls
        = 1 := by
  refine ⟨(oracle_call_count (some "hello") ⟨"id1", "check_availability", []⟩ []
      .failure (fun _ _ => "") (fun _ _ => "") ⟨[], []⟩ [] "2024-05-01" [] "hi").1, ?_, ?_⟩
  · exact (oracle_call_count none ⟨"id1", "check_availability", []⟩ []
      (.ok (some "done") []) (fun _ _ => "") (fun _ _ => "")
      ⟨[], []⟩ [("provider", "wix")] "2024-05-01" [] "hi").2.1 (by decide)
  · exact ((oracle_call_count none ⟨"id2", "create_appointment",
        [("service_name", "haircut"), ("date", "2024-05-02"), ("time", "10:00 AM"),
         ("customer_name", "Alex"), ("customer_email", "alex@example.com")]⟩ []
      (.ok (some "done") []) (fun _ _ => "") (fun _ _ => "")
      ⟨[], []⟩ [("provider", "square"), ("api_key", "k")] "2024-05-01" [] "hi").2.2
      (by rfl)).1

/-- Claim C6 (amended): provider-level failures that are represented as
result strings — the router's unknown-provider error and the providers'
own caught-error JSON — are data, not exceptions: when no executed call
raises at keyword binding, every recognized request's result string
(whatever it is) is fed back into the transient dialogue as a tool
message and, when the synthesis call succeeds, the turn completes through
the normal persisting path with the synthesized reply and two oracle
calls.  A provider call whose keyword binding fails instead raises
TypeError and aborts the turn through the apology path — see the
counterexample. -/
theorem provider_error_results_never_abort_turn
    (c t : Option String) (tc0 : ToolCall) (rest tcs2 : List ToolCall)
    (sga sca : List (String × String) → Option String → String)
    (bd : BusinessData) (bk : BookingData) (today : String)
    (hist : List PMsg) (p : String)
    (hnr : ∀ tc ∈ tc0 :: rest,
        callTool ⟨.ok c (tc0 :: rest), .ok t tcs2, sga, sca⟩ bk tc ≠ ToolCallStep.raised) :
    (turnCore ⟨.ok c (tc0 :: rest), .ok t tcs2, sga, sca⟩ bd bk today hist p).oracleCalls = 2
    ∧ (turnCore ⟨.ok c (tc0 :: rest), .ok t tcs2, sga, sca⟩ bd bk today hist p).reply
        = finalizeReply t
    ∧ (turnCore ⟨.ok c (tc0 :: rest), .ok t tcs2, sga, sca⟩ bd bk today hist p).hist
        = lastTen (hist ++ [PMsg.user p, PMsg.assistant t])
    ∧ ∀ tc ∈ tc0 :: rest, recognizedName tc.name = true →
        toolMsg ⟨.ok c (tc0 :: rest), .ok t tcs2, sga, sca⟩ bk tc
          ∈ (turnCore ⟨.ok c (tc0 :: rest), .ok t tcs2, sga, sca⟩ bd bk today hist p).messages := by
  have hex := execTools_not_raised ⟨.ok c (tc0 :: rest), .ok t tcs2, sga, sca⟩
    bk (tc0 :: rest) hnr
  refine ⟨by simp [turnCore, hex], by simp [turnCore, hex], by simp [turnCore, hex], ?_⟩
  intro tc htc hrec
  rw [turnCore_messages_toolpath, hex]
  exact List.mem_append_right _
    (List.mem_map_of_mem _ (List.mem_filter.mpr ⟨htc, hrec⟩))

/-- Claim C6 counterexample: executing a schema-compliant
`create_appointment` request against provider "square" raises TypeError
at keyword binding; the exception aborts the turn through the apology
path, the persisted history is untouched, and the failure is never fed
back as a tool result — a provider-execution failure that does abort the
turn, refuting the claim as stated. -/
theorem provider_binding_failure_aborts_turn :
    (turnCore ⟨.ok none [⟨"id9", "create_appointment",
          [("service_name", "haircut"), ("date", "2024-05-02"), ("time", "10:00 AM"),
           ("customer_name", "Alex"), ("customer_email", "alex@example.com")]⟩],
        .ok (some "done") [], fun _ _ => "", fun _ _ => ""⟩
      ⟨[], []⟩ [("provider", "square"), ("api_key", "k")] "2024-05-01" [] "book me").reply
        = apologyReply
    ∧ toolResults (turnCore ⟨.ok none [⟨"id9", "create_appointment",
          [("service_name", "haircut"), ("date", "2024-05-02"), ("time", "10:00 AM"),
           ("customer_name", "Alex"), ("customer_email", "alex@example.com")]⟩],
        .ok (some "done") [], fun _ _ => "", fun _ _ => ""⟩
      ⟨[], []⟩ [("provider", "square"), ("api_key", "k")] "2024-05-01" [] "book me").messages
        = []
    ∧ (turnCore ⟨.ok none [⟨"id9", "create_appointment",
          [("service_name", "haircut"), ("date", "2024-05-02"), ("time", "10:00 AM"),
           ("customer_name", "Alex"), ("customer_email", "alex@example.com")]⟩],
        .ok (some "done") [], fun _ _ => "", fun _ _ => ""⟩
      ⟨[], []⟩ [("provider", "square"), ("api_key", "k")] "2024-05-01" [] "book me").hist
        = [] := by
  exact ⟨rfl, rfl, rfl⟩

/-- Claim C6 witness: a concrete tool-using turn against the unknown
provider "wix": the unknown-provider error JSON is fed back as the tool
result for request "id1" and the turn still returns the synthesized text. -/
theorem provider_error_results_never_abort_turn_witness :
    (turnCore ⟨.ok none [⟨"id1", "check_availability",
            [("service_name", "haircut"), ("date", "2024-05-02")]⟩],
          .ok (some "All done") [], fun _ _ => "", fun _ _ => ""⟩
        ⟨[], []⟩ [("provider", "wix")] "2024-05-01" [] "book me").reply = "All done"
    ∧ TMsg.tool "id1" "check_availability" unsupportedProviderError
        ∈ (turnCore ⟨.ok none [⟨"id1", "check_availability",
              [("service_name", "haircut"), ("date", "2024-05-02")]⟩],
            .ok (some "All done") [], fun _ _ => "", fun _ _ => ""⟩
          ⟨[], []⟩ [("provider", "wix")] "2024-05-01" [] "book me").messages := by
  have h := provider_error_results_never_abort_turn none (some "All done")
    ⟨"id1", "check_availability", [("service_name", "haircut"), ("date", "2024-05-02")]⟩
    [] [] (fun _ _ => "") (fun _ _ => "")
    ⟨[], []⟩ [("provider", "wix")] "2024-05-01" [] "book me" (by decide)
  refine ⟨h.2.1.trans (by rfl), ?_⟩
  exact h.2.2.2 _ (List.mem_singleton.mpr rfl) (by rfl)

/-- Claim C7 counterexample: in the fixed tool schema, `customer_email`
IS listed among `create_appointment`'s required parameters, so it is not
an optional parameter as the claim states. -/
theorem customer_email_is_required :
    "customer_email" ∈ (tools.map FunctionSchema.required).getLast (by decide)
    ∧ tools.map FunctionSchema.required
        ≠ [["service_name", "date"], ["service_name", "date", "time", "customer_name"]] := by
  exact ⟨by decide, by decide⟩

/-- Claim C7 (amended): in the fixed tool schema passed to the oracle,
`check_availability` requires `service_name` and `date`, and
`create_appointment` requires `service_name`, `date`, `time`,
`customer_name` AND `customer_email` (the email parameter is required,
not optional). -/
theorem tool_schema_required_parameters :
    tools.map FunctionSchema.required
      = [["service_name", "date"],
         ["service_name", "date", "time", "customer_name", "customer_email"]] := by
  rfl

/-- Claim C8: for every provider identifier outside the known set
(setmore, square) — a missing identifier (`none`) included — both router
operations are total functions returning the structured unknown-provider
error JSON as an ordinary string value, so the error is representable as
a normal tool result and no exception is involved. -/
theorem unknown_provider_structured_error
    (env : Env) (provider : Option String)
    (kwargs : List (String × String)) (key : Option String)
    (h1 : provider ≠ some "setmore") (h2 : provider ≠ some "square") :
    get_availability_from_provider env provider kwargs key = unsupportedProviderError
    ∧ create_appointment_with_provider env provider kwargs key = unsupportedProviderError := by
  constructor <;>
    simp [get_availability_from_provider, create_appointment_with_provider, h1, h2]

/-- Claim C8 witness: both router operations at the concrete unknown
provider id "wix" return the structured error JSON. -/
theorem unknown_provider_structured_error_witness :
    get_availability_from_provider ⟨.failure, .failure, fun _ _ => "", fun _ _ => ""⟩
        (some "wix") [] none = unsupportedProviderError
    ∧ create_appointment_with_provider ⟨.failure, .failure, fun _ _ => "", fun _ _ => ""⟩
        (some "wix") [] none = unsupportedProviderError :=
  unknown_provider_structured_error ⟨.failure, .failure, fun _ _ => "", fun _ _ => ""⟩
    (some "wix") [] none (by decide) (by decide)

theorem insertService_perm (x : String × Service) (l : List (String × Service)) :
    List.Perm (insertService x l) (x :: l) := by
  induction l with
  | nil => exact List.Perm.refl _
  | cons y ys ih =>
    rw [insertService]
    split
    · exact List.Perm.refl _
    · exact (List.Perm.cons y ih).trans (List.Perm.swap x y ys)

theorem insertService_pairwise (x : String × Service) (l : List (String × Service))
    (hl : List.Pairwise (fun a b : String × Service => a.1 ≤ b.1) l) :
    List.Pairwise (fun a b : String × Service => a.1 ≤ b.1) (insertService x l) := by
  induction l with
  | nil => simp [insertService]
  | cons y ys ih =>
    rcases List.pairwise_cons.mp hl with ⟨hy, hys⟩
    rw [insertService]
    split
    · next hxy =>
      refine List.pairwise_cons.mpr ⟨?_, hl⟩
      intro b hb
      rcases List.mem_cons.mp hb with hb | hb
      · rw [hb]; exact hxy
      · exact le_trans hxy (hy b hb)
    · next hxy =>
      refine List.pairwise_cons.mpr ⟨?_, ih hys⟩
      intro b hb
      rcases List.mem_cons.mp ((insertService_perm x ys).mem_iff.mp hb) with hb | hb
      · rw [hb]; exact le_of_not_le hxy
      · exact hy b hb

theorem sortedServices_sorted (l : List (String × Service)) :
    List.Pairwise (fun a b : String × Service => a.1 ≤ b.1) (sortedServices l) := by
  induction l with
  | nil => simp [sortedServices]
  | cons x xs ih => exact insertService_pairwise x _ ih

theorem sortedServices_perm (l : List (String × Service)) :
    List.Perm (sortedServices l) l := by
  induction l with
  | nil => exact List.Perm.refl _
  | cons x xs ih => exact (insertService_perm x _).trans (ih.cons x)

/-- Claim C9: the rendered instruction block lists the offered services
(name, price, duration) sorted by service name with names title-cased,
and missing config values (business name, handoff phrase) are replaced by
their named defaults ("our shop", the default handoff phrase) instead of
failing: the prompt of a config missing both keys equals the prompt of the
same config with the defaults written in explicitly. -/
theorem context_builder_sorted_titled_defaults
    (services : List (String × Service)) (config : List (String × String))
    (today : String) (hs : services ≠ [])
    (hb : config.lookup "business_name" = none)
    (hh : config.lookup "handoff_code" = none) :
    format_services_for_prompt services
      = String.intercalate "\n" ((sortedServices services).map service_line)
    ∧ List.Pairwise (fun a b : String × Service => a.1 ≤ b.1) (sortedServices services)
    ∧ List.Perm (sortedServices services) services
    ∧ (∀ pr ∈ sortedServices services,
        service_line pr = "- " ++ strTitle pr.1 ++ ": Price is " ++ pr.2.price
          ++ ", Duration is " ++ pr.2.duration)
    ∧ system_prompt ⟨services, config⟩ today
        = system_prompt ⟨services, ("business_name", "our shop")
            :: ("handoff_code", defaultHandoff) :: config⟩ today := by
  refine ⟨?_, sortedServices_sorted services, sortedServices_perm services,
    fun pr _ => rfl, ?_⟩
  · have he : services.isEmpty = false := by
      cases services with
      | nil => exact absurd rfl hs
      | cons a l => rfl
    rw [format_services_for_prompt, he]
    rfl
  · have e1 : configGet config "business_name" "our shop" = "our shop" := by
      simp [configGet, hb]
    have e2 : configGet config "handoff_code" defaultHandoff = defaultHandoff := by
      simp [configGet, hh]
    have e1' : configGet (("business_name", "our shop")
        :: ("handoff_code", defaultHandoff) :: config) "business_name" "our shop"
        = "our shop" := rfl
    have e2' : configGet (("business_name", "our shop")
        :: ("handoff_code", defaultHandoff) :: config) "handoff_code" defaultHandoff
        = defaultHandoff := rfl
    simp only [system_prompt, e1, e2, e1', e2']

/-- Claim C9 witness: two concretely named services render sorted by name
and title-cased, and the prompt built from an empty config equals the one
built with the named defaults made explicit. -/
theorem context_builder_sorted_titled_defaults_witness :
    format_services_for_prompt [("hair cut", ⟨"$30", "30 min"⟩), ("beard trim", ⟨"$15", "15 min"⟩)]
      = "- Beard Trim: Price is $15, Duration is 15 min\n- Hair Cut: Price is $30, Duration is 30 min"
    ∧ List.Pairwise (fun a b : String × Service => a.1 ≤ b.1)
        (sortedServices [("hair cut", ⟨"$30", "30 min"⟩), ("beard trim", ⟨"$15", "15 min"⟩)])
    ∧ system_prompt ⟨[("hair cut", ⟨"$30", "30 min"⟩), ("beard trim", ⟨"$15", "15 min"⟩)], []⟩
          "2024-05-01"
        = system_prompt ⟨[("hair cut", ⟨"$30", "30 min"⟩), ("beard trim", ⟨"$15", "15 min"⟩)],
            [("business_name", "our shop"), ("handoff_code", defaultHandoff)]⟩ "2024-05-01" := by
  have hle : ¬ ("hair cut" : String) ≤ "beard trim" := by
    simp
    decide
  have hs : sortedServices [("hair cut", ⟨"$30", "30 min"⟩), ("beard trim", ⟨"$15", "15 min"⟩)]
      = [("beard trim", ⟨"$15", "15 min"⟩), ("hair cut", ⟨"$30", "30 min"⟩)] := by
    simp [sortedServices, insertService, hle]
  have h := context_builder_sorted_titled_defaults
    [("hair cut", ⟨"$30", "30 min"⟩), ("beard trim", ⟨"$15", "15 min"⟩)] [] "2024-05-01"
    (by decide) rfl rfl
  refine ⟨h.1.trans ?_, h.2.1, h.2.2.2.2⟩
  rw [hs]
  rfl

/-- Claim C10: assistant-turn persistence is asymmetric between the two
completion paths.  Tool path (reaching the synthesis response, i.e. no
executed call raised): an assistant entry is appended unconditionally,
with whatever content the synthesis call returned — `none` included, in
which case the history records an assistant entry with no content while
the caller receives the neutral prompt.  No-tool path: a falsy final text
(`none` or the empty string) appends only the user entry, so the history
grows by a single entry and its length can become odd. -/
theorem assistant_persistence_asymmetry
    (c t : Option String) (tc0 : ToolCall) (rest tcs2 : List ToolCall)
    (sga sca : List (String × String) → Option String → String)
    (bd : BusinessData) (bk : BookingData) (today : String)
    (hist : List PMsg) (p : String)
    (hnr : ∀ tc ∈ tc0 :: rest,
        callTool ⟨.ok c (tc0 :: rest), .ok t tcs2, sga, sca⟩ bk tc ≠ ToolCallStep.raised) :
    (turnCore ⟨.ok c (tc0 :: rest), .ok t tcs2, sga, sca⟩ bd bk today hist p).hist
        = lastTen (hist ++ [PMsg.user p, PMsg.assistant t])
    ∧ (t = none →
        (turnCore ⟨.ok c (tc0 :: rest), .ok t tcs2, sga, sca⟩ bd bk today hist p).reply
          = neutralReply)
    ∧ (turnCore ⟨.ok none [], .failure, sga, sca⟩ bd bk today hist p).hist
        = lastTen (hist ++ [PMsg.user p])
    ∧ (turnCore ⟨.ok (some "") [], .failure, sga, sca⟩ bd bk today hist p).hist
        = lastTen (hist ++ [PMsg.user p])
    ∧ (hist.length ≤ 9 →
        (turnCore ⟨.ok none [], .failure, sga, sca⟩ bd bk today hist p).hist.length
          = hist.length + 1) := by
  have hex := execTools_not_raised ⟨.ok c (tc0 :: rest), .ok t tcs2, sga, sca⟩
    bk (tc0 :: rest) hnr
  refine ⟨by simp [turnCore, hex], ?_, rfl, rfl, fun hlen => ?_⟩
  · intro ht
    subst ht
    simp [turnCore, hex, finalizeReply]
  · have he : (turnCore ⟨.ok none [], .failure, sga, sca⟩ bd bk today hist p).hist
        = lastTen (hist ++ [PMsg.user p]) := rfl
    rw [he]
    simp only [lastTen, List.length_drop, List.length_append, List.length_cons,
      List.length_nil]
    omega

/-- Claim C10 witness: a concrete tool-path turn whose synthesis returns
no content persists `[user "hi", assistant none]` while the caller gets
the neutral prompt, and a concrete no-tool turn with no text persists only
the user entry, leaving an odd history length of 1. -/
theorem assistant_persistence_asymmetry_witness :
    (turnCore ⟨.ok (some "calling") [⟨"id1", "check_availability", []⟩], .ok none [],
          fun _ _ => "", fun _ _ => ""⟩ ⟨[], []⟩ [] "2024-05-01" [] "hi").hist
      = [PMsg.user "hi", PMsg.assistant none]
    ∧ (turnCore ⟨.ok (some "calling") [⟨"id1", "check_availability", []⟩], .ok none [],
          fun _ _ => "", fun _ _ => ""⟩ ⟨[], []⟩ [] "2024-05-01" [] "hi").reply = neutralReply
    ∧ (turnCore ⟨.ok none [], .failure, fun _ _ => "", fun _ _ => ""⟩
          ⟨[], []⟩ [] "2024-05-01" [] "hi").hist.length = 1 := by
  have h := assistant_persistence_asymmetry (some "calling") none
    ⟨"id1", "check_availability", []⟩ [] [] (fun _ _ => "") (fun _ _ => "")
    ⟨[], []⟩ [] "2024-05-01" [] "hi" (by decide)
  exact ⟨h.1.trans (by rfl), h.2.1 rfl, h.2.2.2.2 (by decide)⟩
